import Mathlib

/-!
Shallow embedding of `src/docs/tunein.py`, a single linear script that
lists a user's favorited stations/podcasts and resolves each favorite
to a playable stream URL.

Modelling conventions
- Python dicts with fixed keys become structures with `Option` fields
  (`.get` returning `None` is `none`).
- The child item `ite` is the one dict whose keys are scanned with
  `key.endswith('Cell')`, so it is kept as an ordered association list,
  mirroring Python's insertion-ordered dict iteration.
- Python truthiness of the values that are actually tested:
  a string id is truthy iff present and non-empty (`pyTruthy`);
  a `Children` JSON array is truthy iff present and non-empty.
- The two network calls are parametrised by oracles mapping the
  requested identifier to the parsed response payload:
  `tuneO` for `Tune.ashx` (its `body` list) and
  `podO` for `profiles/{id}/contents` (its `Items` list).
- `print(...)` becomes an `Event.out` entry in an event trace;
  the two outgoing requests are recorded as `Event.podReq` /
  `Event.streamReq` so data flow into the endpoints is observable.
- The one runtime fault the claims touch (`cell.get` on `None`,
  an `AttributeError`) is modelled with `Except`.
-/

/-- One entry of the `body` list of a `Tune.ashx` response. -/
structure StreamEntry where
  media_type : String
  url : String
deriving DecidableEq, Repr

/-- One child of an item's `Children` group in a
`profiles/{id}/contents` response. -/
structure PodChild where
  GuideId : String
deriving DecidableEq, Repr

/-- One entry of the `Items` list of a `profiles/{id}/contents`
response; `Children` may be absent (`none`) or an array. -/
structure PodItem where
  Children : Option (List PodChild)
deriving DecidableEq, Repr

/-- The `ContentInfo` sub-object of a Cell; `Type'` models the JSON key
`Type` (a Lean keyword). -/
structure ContentInfo where
  Type' : String
deriving DecidableEq, Repr

/-- The `SEOInfo` sub-object of a Cell. -/
structure SEOInfo where
  Title : String
deriving DecidableEq, Repr

/-- A Cell object: `cell.get` on each key yields an `Option`. -/
structure Cell where
  GuideId : Option String
  ContentInfo : Option ContentInfo
  SEOInfo : Option SEOInfo
deriving DecidableEq, Repr

/-- A child item of a List/Gallery container: a Python dict, kept as an
ordered key/value list because the code scans its keys with
`key.endswith('Cell')`.  Only values under Cell-suffixed keys are ever
inspected, so all values are typed as `Cell`. -/
def ChildItem : Type := List (String × Cell)

/-- The `List` / `Gallery` container object with its `Items` list. -/
structure Container where
  Items : List ChildItem

/-- One top-level favorite entry: may carry a `List` container
(field `List'`, as `List` is taken in Lean) and/or a `Gallery`
container; `none` stands for absent-or-falsy. -/
structure FavItem where
  List' : Option Container
  Gallery : Option Container

/-- Python truthiness of an optional string id: `None` and the empty
string are falsy (`if not id:`). -/
def pyTruthy : Option String → Bool
  | none => false
  | some s => !(s == "")

/-- Python `print(x)` rendering of an optional string: `None` prints as
the text "None". -/
def pyPrint : Option String → String
  | none => "None"
  | some u => u

/-- Observable events of a run: printed lines and outgoing resolution
requests. -/
inductive Event where
  | out (line : String)
  | streamReq (id : Option String)
  | podReq (id : Option String)
deriving DecidableEq, Repr

/-- The one runtime fault modelled: `cell.get('GuideId')` with `cell = None`. -/
inductive PyError where
  | attributeError
deriving DecidableEq, Repr

/-- The `for stream in stream_data['body']` loop of `get_stream`
(lines 39-42): return the url of the first entry tagged `mp3`. -/
def mp3_scan : List StreamEntry → Option String
  | [] => none
  | s :: rest => if s.media_type = "mp3" then some s.url else mp3_scan rest

/-- `get_stream`, lines 36-44, applied to the `body` list of the
response: first `mp3` entry's url, else (line 43-44) the first entry's
url if the list is non-empty, else fall off the end (`None`). -/
def get_stream_body (body : List StreamEntry) : Option String :=
  match mp3_scan body with
  | some u => some u
  | none =>
    if h : 0 < body.length then some (body.get ⟨0, h⟩).url else none

/-- `get_stream id`: issue the Tune request for `id` (oracle `tuneO`
gives the response `body`) and select per `get_stream_body`. -/
def get_stream (tuneO : Option String → List StreamEntry)
    (id : Option String) : Option String :=
  get_stream_body (tuneO id)

/-- The `for x in pod_info["Items"]` loop of `get_pod_info`
(lines 48-52): `list = x.get("Children")`; `if list:` is truthy only
for a present non-empty array, and then `for y in list: return
y["GuideId"]` returns the first child's GuideId; otherwise the outer
loop moves to the next item; falling off the end yields `None`. -/
def get_pod_info_scan : List PodItem → Option String
  | [] => none
  | x :: rest =>
    match x.Children with
    | some (y :: _) => some y.GuideId
    | _ => get_pod_info_scan rest

/-- `get_pod_info id`: issue the contents request for `id` (oracle
`podO` gives the response `Items`) and scan per `get_pod_info_scan`. -/
def get_pod_info (podO : Option String → List PodItem)
    (id : Option String) : Option String :=
  get_pod_info_scan (podO id)

/-- Python `key.endswith('Cell')`: the character list "Cell" is a
suffix of the key's character list (stated via reversed lists so the
check computes by structural recursion). -/
def endsWithCell (key : String) : Bool :=
  List.isPrefixOf "Cell".data.reverse key.data.reverse

/-- Lines 59-62: `next((value for key, value in ite.items() if
key.endswith('Cell')), None)` — the value under the first key (in
insertion order) ending in "Cell", else `None`. -/
def findCell (ite : ChildItem) : Option Cell :=
  (ite.find? (fun kv => endsWithCell kv.1)).map (fun kv => kv.2)

/-- Lines 69-81, the body run once `id` is known truthy: read
`ContentInfo` and `SEOInfo`; skip with a diagnostic if `SEOInfo` is
absent; print the title; if `ContentInfo` is present, skip (after the
title) when its `Type` is "Audiobook", else print the type and, when
the type is not "Station", replace `id` by the latest-episode lookup;
finally request and print the stream URL for the (possibly replaced)
`id`. -/
def processCellBody (tuneO : Option String → List StreamEntry)
    (podO : Option String → List PodItem) (cell : Cell) : List Event :=
  let id := cell.GuideId
  match cell.SEOInfo with
  | none => [Event.out "no seo info! skipping"]
  | some seo =>
    match cell.ContentInfo with
    | some ci =>
      if ci.Type' = "Audiobook" then
        [Event.out seo.Title]
      else if ci.Type' = "Station" then
        [Event.out seo.Title, Event.out ci.Type', Event.streamReq id,
         Event.out (pyPrint (get_stream tuneO id))]
      else
        let id2 := get_pod_info podO id
        [Event.out seo.Title, Event.out ci.Type', Event.podReq id,
         Event.streamReq id2, Event.out (pyPrint (get_stream tuneO id2))]
    | none =>
      [Event.out seo.Title, Event.streamReq id,
       Event.out (pyPrint (get_stream tuneO id))]

/-- Lines 59-81, one child item `ite`: locate the Cell (crashing with
an `AttributeError` at `cell.get('GuideId')` when no Cell-suffixed key
exists, line 63); skip silently when the id is falsy (lines 64-65);
then the duplicated falsy check of lines 66-67 with its
`'didnt find cell!'` diagnostic; otherwise run the else-branch body. -/
def processItem (tuneO : Option String → List StreamEntry)
    (podO : Option String → List PodItem) (ite : ChildItem) :
    Except PyError (List Event) :=
  match findCell ite with
  | none => Except.error PyError.attributeError
  | some cell =>
    if pyTruthy cell.GuideId = false then Except.ok []
    else if pyTruthy cell.GuideId = false then
      Except.ok [Event.out "didnt find cell!"]
    else Except.ok (processCellBody tuneO podO cell)

/-- The same per-item step with the duplicated `if not id` guard of
lines 66-67 collapsed to the single guard of lines 64-65. -/
def processItemCollapsed (tuneO : Option String → List StreamEntry)
    (podO : Option String → List PodItem) (ite : ChildItem) :
    Except PyError (List Event) :=
  match findCell ite with
  | none => Except.error PyError.attributeError
  | some cell =>
    if pyTruthy cell.GuideId = false then Except.ok []
    else Except.ok (processCellBody tuneO podO cell)

/-- Lines 58-81: the inner loop over `list["Items"]`.  Events of the
items already processed are kept; a crash stops the run and is
reported. -/
def run_items (tuneO : Option String → List StreamEntry)
    (podO : Option String → List PodItem) :
    List ChildItem → List Event × Option PyError
  | [] => ([], none)
  | ite :: rest =>
    match processItem tuneO podO ite with
    | Except.error e => ([], some e)
    | Except.ok evs =>
      let r := run_items tuneO podO rest
      (evs ++ r.1, r.2)

/-- Lines 54-81: the outer loop over `fav_data["Items"]`.
`item.get("List") or item.get("Gallery")` takes the first present
container; entries with neither are skipped (`continue`), printing
nothing. -/
def run_favs (tuneO : Option String → List StreamEntry)
    (podO : Option String → List PodItem) :
    List FavItem → List Event × Option PyError
  | [] => ([], none)
  | item :: rest =>
    match (match item.List' with
           | some c => some c
           | none => item.Gallery) with
    | none => run_favs tuneO podO rest
    | some c =>
      let r := run_items tuneO podO c.Items
      match r.2 with
      | some e => (r.1, some e)
      | none =>
        let r' := run_favs tuneO podO rest
        (r.1 ++ r'.1, r'.2)

/-- The inner loop rebuilt on `processItemCollapsed` (single guard). -/
def run_items_collapsed (tuneO : Option String → List StreamEntry)
    (podO : Option String → List PodItem) :
    List ChildItem → List Event × Option PyError
  | [] => ([], none)
  | ite :: rest =>
    match processItemCollapsed tuneO podO ite with
    | Except.error e => ([], some e)
    | Except.ok evs =>
      let r := run_items_collapsed tuneO podO rest
      (evs ++ r.1, r.2)

/-- The outer loop rebuilt on the single-guard per-item step. -/
def run_favs_collapsed (tuneO : Option String → List StreamEntry)
    (podO : Option String → List PodItem) :
    List FavItem → List Event × Option PyError
  | [] => ([], none)
  | item :: rest =>
    match (match item.List' with
           | some c => some c
           | none => item.Gallery) with
    | none => run_favs_collapsed tuneO podO rest
    | some c =>
      let r := run_items_collapsed tuneO podO c.Items
      match r.2 with
      | some e => (r.1, some e)
      | none =>
        let r' := run_favs_collapsed tuneO podO rest
        (r.1 ++ r'.1, r'.2)

/-- A Tune oracle returning an empty candidate list for every id. -/
def tune0 : Option String → List StreamEntry := fun _ => []

/-- A contents oracle returning an empty `Items` list for every id. -/
def pod0 : Option String → List PodItem := fun _ => []

/-- A Tune oracle whose `body` is `[{media_type: "aac", url: "A"},
{media_type: "mp3", url: "B"}]` for every id. -/
def tuneB : Option String → List StreamEntry :=
  fun _ => [StreamEntry.mk "aac" "A", StreamEntry.mk "mp3" "B"]

/-- A contents oracle whose first item has one child, `ep1`. -/
def podShow : Option String → List PodItem :=
  fun _ => [PodItem.mk (some [PodChild.mk "ep1"])]

/-- A contents oracle whose first item has no `Children` and whose
second item's first child is `X`. -/
def pod6 : Option String → List PodItem :=
  fun _ => [PodItem.mk none, PodItem.mk (some [PodChild.mk "X"])]

/-- A child item carrying an Audiobook-typed Cell. -/
def cellAudiobook : Cell :=
  Cell.mk (some "g3") (some (ContentInfo.mk "Audiobook")) (some (SEOInfo.mk "My Book"))

def iteAudiobook : ChildItem := [("AudiobookCell", cellAudiobook)]

/-- A Cell with no `ContentInfo` (straight to stream resolution). -/
def cellNoCI : Cell := Cell.mk (some "g4") none (some (SEOInfo.mk "T4"))

def iteNoCI : ChildItem := [("StationCell", cellNoCI)]

/-- A Show-typed Cell (non-Station, non-Audiobook). -/
def cellShow : Cell :=
  Cell.mk (some "g5") (some (ContentInfo.mk "Show")) (some (SEOInfo.mk "T5"))

def iteShow : ChildItem := [("ShowCell", cellShow)]

/-- A Cell with a GuideId but no `SEOInfo`. -/
def cellNoSeo : Cell := Cell.mk (some "g8") none none

def iteNoSeo : ChildItem := [("SomeCell", cellNoSeo)]

/-- A child item with no key ending in "Cell". -/
def iteNoCellKey : ChildItem := [("BannerItem", Cell.mk (some "g1") none none)]

/-- Spec-side view of one `PodItem`: Python truthiness of its
`Children` value (present and non-empty). -/
def hasTruthyChildren (x : PodItem) : Bool :=
  match x.Children with
  | some (_ :: _) => true
  | _ => false

/-- Spec-side view of one `PodItem`: the GuideId of the first child of
its `Children` group, when there is one. -/
def firstChildGuideId (x : PodItem) : Option String :=
  (x.Children.bind List.head?).map PodChild.GuideId

/-- Helper: the mp3 loop is the first-match search over the body. -/
theorem mp3_scan_eq_find (body : List StreamEntry) :
    mp3_scan body = (body.find? (fun s => s.media_type == "mp3")).map StreamEntry.url := by
  induction body with
  | nil => rfl
  | cons s rest ih =>
    by_cases h : s.media_type = "mp3"
    · rw [mp3_scan, if_pos h, List.find?_cons_of_pos _ (by simp [h]), Option.map_some']
    · rw [mp3_scan, if_neg h, List.find?_cons_of_neg _ (by simp [h]), ih]

/-- Claim C1: `get_stream` implements the stated selection policy: it
returns the url of the first candidate in the response `body` whose
`media_type` is "mp3"; if no candidate is of type mp3 and the list is
non-empty, the url of the first candidate in response order; and if the
candidate list is empty, nothing (`head?` of `[]` is `none`). -/
theorem get_stream_selection_policy (tuneO : Option String → List StreamEntry)
    (id : Option String) :
    get_stream tuneO id =
      match (tuneO id).find? (fun s => s.media_type == "mp3") with
      | some s => some s.url
      | none => (tuneO id).head?.map StreamEntry.url := by
  unfold get_stream
  generalize tuneO id = body
  rw [get_stream_body, mp3_scan_eq_find]
  cases hf : body.find? (fun s => s.media_type == "mp3") with
  | some s => simp
  | none =>
    cases body with
    | nil => rfl
    | cons b bs => simp

/-- Claim C2 (the claim describes the intended skip; the code crashes):
on a child item with no key ending in "Cell", `cell` is `None` and the
field read `cell.get('GuideId')` raises an `AttributeError`, so the
item is not skipped and the run terminates: a later item in the same
container is never processed. -/
theorem missing_cell_key_crashes :
    findCell iteNoCellKey = none
  ∧ processItem tune0 pod0 iteNoCellKey = Except.error PyError.attributeError
  ∧ run_items tune0 pod0 [iteNoCellKey, iteNoCI] =
      ([], some PyError.attributeError) :=
  ⟨rfl, rfl, rfl⟩

/-- Claim C6, counterexample: with the first item's `Children` absent
and a second item whose first child is "X", `get_pod_info` returns
`some "X"`, not nothing — it scans past the first item. -/
theorem pod_info_reads_past_first_item :
    get_pod_info pod6 (some "p6") = some "X"
  ∧ some "X" ≠ (none : Option String) := ⟨rfl, by decide⟩

/-- Helper: the contents scan returns the first child's GuideId of the
first item with truthy `Children`. -/
theorem get_pod_info_scan_eq (items : List PodItem) :
    get_pod_info_scan items =
      (items.find? hasTruthyChildren).bind firstChildGuideId := by
  induction items with
  | nil => rfl
  | cons x rest ih =>
    cases hx : x.Children with
    | none =>
      rw [get_pod_info_scan, hx, List.find?_cons_of_neg _ (by simp [hasTruthyChildren, hx]), ih]
    | some l =>
      cases l with
      | nil =>
        rw [get_pod_info_scan, hx, List.find?_cons_of_neg _ (by simp [hasTruthyChildren, hx]), ih]
      | cons y ys =>
        rw [get_pod_info_scan, hx, List.find?_cons_of_pos _ (by simp [hasTruthyChildren, hx])]
        simp [firstChildGuideId, hx]

/-- Claim C6, amended: `get_pod_info` returns the GuideId of the first
child of the first item (in response order) whose `Children` group is
present and non-empty, and nothing when no item has a truthy
`Children` group. -/
theorem pod_info_first_truthy_children (podO : Option String → List PodItem)
    (id : Option String) :
    get_pod_info podO id =
      ((podO id).find? hasTruthyChildren).bind firstChildGuideId :=
  get_pod_info_scan_eq (podO id)

/-- Claim C9: a top-level favorite entry with neither a truthy `List`
value nor a truthy `Gallery` value contributes nothing to the run: the
whole run equals the run on the remaining entries. -/
theorem entry_without_container_prints_nothing
    (tuneO : Option String → List StreamEntry)
    (podO : Option String → List PodItem) (rest : List FavItem) :
    run_favs tuneO podO (FavItem.mk none none :: rest) =
      run_favs tuneO podO rest := by
  rw [run_favs]

/-- Helper: the per-item step with the duplicated guard equals the
single-guard version. -/
theorem processItem_eq_collapsed (tuneO : Option String → List StreamEntry)
    (podO : Option String → List PodItem) (ite : ChildItem) :
    processItem tuneO podO ite = processItemCollapsed tuneO podO ite := by
  unfold processItem processItemCollapsed
  cases findCell ite with
  | none => rfl
  | some cell => cases h : pyTruthy cell.GuideId <;> simp [h]

/-- Helper: the inner loop is unchanged by collapsing the guard. -/
theorem run_items_eq_collapsed (tuneO : Option String → List StreamEntry)
    (podO : Option String → List PodItem) (l : List ChildItem) :
    run_items tuneO podO l = run_items_collapsed tuneO podO l := by
  induction l with
  | nil => rfl
  | cons ite rest ih =>
    rw [run_items, run_items_collapsed, processItem_eq_collapsed, ih]

/-- Helper: the whole run is unchanged by collapsing the guard. -/
theorem run_favs_eq_collapsed (tuneO : Option String → List StreamEntry)
    (podO : Option String → List PodItem) (favs : List FavItem) :
    run_favs tuneO podO favs = run_favs_collapsed tuneO podO favs := by
  induction favs with
  | nil => rfl
  | cons item rest ih =>
    rw [run_favs, run_favs_collapsed]
    simp only [run_items_eq_collapsed, ih]

/-- Claim C7: the second `if not id` check is dead code: the per-item
step equals the version with the duplicate check collapsed to a single
guard, and so does the whole run — observable behaviour is
unchanged on every input. -/
theorem duplicate_guard_dead_code (tuneO : Option String → List StreamEntry)
    (podO : Option String → List PodItem) (ite : ChildItem)
    (favs : List FavItem) :
    processItem tuneO podO ite = processItemCollapsed tuneO podO ite
  ∧ run_favs tuneO podO favs = run_favs_collapsed tuneO podO favs :=
  ⟨processItem_eq_collapsed tuneO podO ite, run_favs_eq_collapsed tuneO podO favs⟩

/-- Claim C3, counterexample: for an Audiobook-typed Cell the title
line IS printed — the item's trace is not empty, refuting "no line is
printed for it, including no title line". -/
theorem audiobook_title_line_printed :
    processItem tune0 pod0 iteAudiobook = Except.ok [Event.out "My Book"]
  ∧ [Event.out "My Book"] ≠ ([] : List Event) := ⟨rfl, by decide⟩

/-- Claim C3, amended: for every Cell that reaches the title step
(truthy GuideId, SEOInfo present) with ContentInfo.Type = "Audiobook",
the traversal prints the title line and only then skips the item: no
content-type line, no stream request, no URL line. -/
theorem audiobook_skipped_after_title (tuneO : Option String → List StreamEntry)
    (podO : Option String → List PodItem) (ite : ChildItem) (cell : Cell)
    (seo : SEOInfo) (ci : ContentInfo)
    (hc : findCell ite = some cell) (hid : pyTruthy cell.GuideId = true)
    (hseo : cell.SEOInfo = some seo) (hci : cell.ContentInfo = some ci)
    (hty : ci.Type' = "Audiobook") :
    processItem tuneO podO ite = Except.ok [Event.out seo.Title] := by
  simp [processItem, hc, hid, processCellBody, hseo, hci, hty]

/-- Witness for the amended C3 theorem at a concrete Audiobook item. -/
theorem audiobook_skipped_after_title_witness :
    processItem tune0 pod0 iteAudiobook = Except.ok [Event.out "My Book"] :=
  audiobook_skipped_after_title tune0 pod0 iteAudiobook cellAudiobook
    (SEOInfo.mk "My Book") (ContentInfo.mk "Audiobook") rfl rfl rfl rfl rfl

/-- Claim C4, counterexample: with an empty candidate list,
`get_stream` does return nothing, but the caller's line 81
`print(get_stream(id))` prints the placeholder text "None" for the
item's URL line — the line is neither empty nor absent. -/
theorem empty_body_prints_none_line :
    get_stream tune0 (some "g4") = none
  ∧ processItem tune0 pod0 iteNoCI =
      Except.ok [Event.out "T4", Event.streamReq (some "g4"), Event.out "None"]
  ∧ ("None" : String) ≠ "" := ⟨rfl, rfl, by decide⟩

/-- Claim C4, amended: for every stream response with an empty
candidate list, `get_stream` returns nothing, and the caller prints the
text "None" (Python's rendering of `None`) as the item's URL line
(shown on both paths that query the original id: no ContentInfo, and
ContentInfo of type "Station"). -/
theorem empty_body_none_line (tuneO : Option String → List StreamEntry)
    (podO : Option String → List PodItem) (ite : ChildItem) (cell : Cell)
    (seo : SEOInfo)
    (hc : findCell ite = some cell) (hid : pyTruthy cell.GuideId = true)
    (hseo : cell.SEOInfo = some seo)
    (hci : cell.ContentInfo = none ∨ cell.ContentInfo = some (ContentInfo.mk "Station"))
    (hb : tuneO cell.GuideId = []) :
    get_stream tuneO cell.GuideId = none
  ∧ (processItem tuneO podO ite =
       Except.ok [Event.out seo.Title, Event.streamReq cell.GuideId,
                  Event.out "None"]
   ∨ processItem tuneO podO ite =
       Except.ok [Event.out seo.Title, Event.out "Station",
                  Event.streamReq cell.GuideId, Event.out "None"]) := by
  have h1 : get_stream tuneO cell.GuideId = none := by
    unfold get_stream get_stream_body
    rw [hb]
    rfl
  refine ⟨h1, ?_⟩
  rcases hci with hci | hci
  · left
    simp [processItem, hc, hid, processCellBody, hseo, hci, h1, pyPrint]
  · right
    simp [processItem, hc, hid, processCellBody, hseo, hci, h1, pyPrint]

/-- Witness for the amended C4 theorem at a concrete item with an
empty-bodied Tune oracle. -/
theorem empty_body_none_line_witness :
    get_stream tune0 cellNoCI.GuideId = none
  ∧ (processItem tune0 pod0 iteNoCI =
       Except.ok [Event.out "T4", Event.streamReq (some "g4"), Event.out "None"]
   ∨ processItem tune0 pod0 iteNoCI =
       Except.ok [Event.out "T4", Event.out "Station",
                  Event.streamReq (some "g4"), Event.out "None"]) :=
  empty_body_none_line tune0 pod0 iteNoCI cellNoCI (SEOInfo.mk "T4")
    rfl rfl rfl (Or.inl rfl) rfl

/-- Claim C5: for a Cell whose ContentInfo type is neither "Station"
nor "Audiobook", the identifier in the stream request (and hence in the
printed URL) is `get_pod_info` applied to the original GuideId, not the
original GuideId itself. -/
theorem show_uses_latest_episode_id (tuneO : Option String → List StreamEntry)
    (podO : Option String → List PodItem) (ite : ChildItem) (cell : Cell)
    (seo : SEOInfo) (ci : ContentInfo)
    (hc : findCell ite = some cell) (hid : pyTruthy cell.GuideId = true)
    (hseo : cell.SEOInfo = some seo) (hci : cell.ContentInfo = some ci)
    (hA : ci.Type' ≠ "Audiobook") (hS : ci.Type' ≠ "Station") :
    processItem tuneO podO ite =
      Except.ok [Event.out seo.Title, Event.out ci.Type',
        Event.podReq cell.GuideId,
        Event.streamReq (get_pod_info podO cell.GuideId),
        Event.out (pyPrint (get_stream tuneO (get_pod_info podO cell.GuideId)))] := by
  simp [processItem, hc, hid, processCellBody, hseo, hci, hA, hS]

/-- Witness for C5: the Show item's stream request carries the resolved
latest-episode id "ep1", not the original "g5". -/
theorem show_uses_latest_episode_id_witness :
    processItem tuneB podShow iteShow =
      Except.ok [Event.out "T5", Event.out "Show", Event.podReq (some "g5"),
        Event.streamReq (some "ep1"), Event.out "B"] :=
  show_uses_latest_episode_id tuneB podShow iteShow cellShow
    (SEOInfo.mk "T5") (ContentInfo.mk "Show") rfl rfl rfl rfl
    (by decide) (by decide)

/-- Claim C8: a Cell with a GuideId but no SEOInfo yields exactly the
"no seo info! skipping" diagnostic — no title, no stream request, no
URL line — and the inner loop continues with the remaining items. -/
theorem no_seo_info_skip (tuneO : Option String → List StreamEntry)
    (podO : Option String → List PodItem) (ite : ChildItem) (cell : Cell)
    (rest : List ChildItem)
    (hc : findCell ite = some cell) (hid : pyTruthy cell.GuideId = true)
    (hseo : cell.SEOInfo = none) :
    processItem tuneO podO ite = Except.ok [Event.out "no seo info! skipping"]
  ∧ run_items tuneO podO (ite :: rest) =
      (Event.out "no seo info! skipping" :: (run_items tuneO podO rest).1,
       (run_items tuneO podO rest).2) := by
  have h1 : processItem tuneO podO ite =
      Except.ok [Event.out "no seo info! skipping"] := by
    simp [processItem, hc, hid, processCellBody, hseo]
  refine ⟨h1, ?_⟩
  rw [run_items, h1]
  rfl

/-- Witness for C8 at a concrete Cell with GuideId "g8" and no
SEOInfo. -/
theorem no_seo_info_skip_witness :
    processItem tune0 pod0 iteNoSeo =
      Except.ok [Event.out "no seo info! skipping"]
  ∧ run_items tune0 pod0 (iteNoSeo :: [iteNoCI]) =
      (Event.out "no seo info! skipping" :: (run_items tune0 pod0 [iteNoCI]).1,
       (run_items tune0 pod0 [iteNoCI]).2) :=
  no_seo_info_skip tune0 pod0 iteNoSeo cellNoSeo [iteNoCI] rfl rfl rfl

/-- Claim C10: when the latest-episode lookup of a non-Station,
non-Audiobook item finds nothing, `get_pod_info` returns `none` and the
traversal still issues the stream request for that null identifier —
`Event.streamReq none` — with no guard, instead of skipping the
item. -/
theorem null_id_still_queried (tuneO : Option String → List StreamEntry)
    (podO : Option String → List PodItem) (ite : ChildItem) (cell : Cell)
    (seo : SEOInfo) (ci : ContentInfo)
    (hc : findCell ite = some cell) (hid : pyTruthy cell.GuideId = true)
    (hseo : cell.SEOInfo = some seo) (hci : cell.ContentInfo = some ci)
    (hA : ci.Type' ≠ "Audiobook") (hS : ci.Type' ≠ "Station")
    (hpod : get_pod_info podO cell.GuideId = none) :
    processItem tuneO podO ite =
      Except.ok [Event.out seo.Title, Event.out ci.Type',
        Event.podReq cell.GuideId, Event.streamReq none,
        Event.out (pyPrint (get_stream tuneO none))] := by
  simp [processItem, hc, hid, processCellBody, hseo, hci, hA, hS, hpod]

/-- Witness for C10: with a contents oracle that has no items, the Show
item's trace ends with a stream request for `none` and the printed
line "None". -/
theorem null_id_still_queried_witness :
    processItem tune0 pod0 iteShow =
      Except.ok [Event.out "T5", Event.out "Show", Event.podReq (some "g5"),
        Event.streamReq none, Event.out "None"] :=
  null_id_still_queried tune0 pod0 iteShow cellShow
    (SEOInfo.mk "T5") (ContentInfo.mk "Show") rfl rfl rfl rfl
    (by decide) (by decide) rfl
